import Mathlib

/-!
# Verification of the Activity-Point-Prediction certificate pipeline

Shallow embedding of `src/app.py` (Flask certificate classification service).
Strings are modelled by Lean `String` (a wrapper around `List Char`);
external library calls (OpenCV image operations, pytesseract OCR,
pdf2image rendering, libmagic sniffing, stdlib `mimetypes`) are modelled
as explicit function parameters or `Option`-valued oracles, so that the
repository's own control flow and data flow are the only thing the
definitions fix.
-/

namespace ActivityPoints

/-! ## Python string primitives used by `app.py` -/

/-- Prefix test on character lists: `substr_at needle hay = true` iff
`needle` occurs at the very start of `hay`. Helper for Python's `in`. -/
def substr_at : List Char → List Char → Bool
  | [], _ => true
  | _ :: _, [] => false
  | a :: as, b :: bs => a == b && substr_at as bs

/-- Python's substring operator `needle in haystack` on character lists:
true iff `needle` occurs contiguously somewhere in `haystack`. -/
def py_in_chars : List Char → List Char → Bool
  | needle, [] => substr_at needle []
  | needle, c :: rest => substr_at needle (c :: rest) || py_in_chars needle rest

/-- Python's `needle in haystack` for strings (`keyword in text` in
`predict_points`). -/
def py_in (needle haystack : String) : Bool :=
  py_in_chars needle.toList haystack.toList

/-- Python's `str.lower()` (ASCII lowering, which is all the keywords need). -/
def py_lower (s : String) : String :=
  String.mk (s.toList.map Char.toLower)

/-- Python's `str.strip()`: drop leading and trailing whitespace. -/
def py_strip (s : String) : String :=
  String.mk (((s.toList.dropWhile Char.isWhitespace).reverse.dropWhile
    Char.isWhitespace).reverse)

/-- Python's `' '.join(texts)`: concatenate with a single space between
consecutive elements. -/
def join_sp : List String → String
  | [] => ""
  | [t] => t
  | t :: rest => t ++ " " ++ join_sp rest

theorem substr_at_iff (n : List Char) :
    ∀ h : List Char, substr_at n h = true ↔ ∃ t, n ++ t = h := by
  induction n with
  | nil =>
    intro h
    simp [substr_at]
  | cons a as ih =>
    intro h
    cases h with
    | nil =>
      simp [substr_at]
    | cons b bs =>
      simp only [substr_at, Bool.and_eq_true, beq_iff_eq, ih bs,
        List.cons_append, List.cons.injEq]
      constructor
      · rintro ⟨rfl, t, rfl⟩
        exact ⟨t, rfl, rfl⟩
      · rintro ⟨t, rfl, rfl⟩
        exact ⟨rfl, t, rfl⟩

theorem py_in_chars_iff (n : List Char) :
    ∀ h : List Char, py_in_chars n h = true ↔ ∃ s t, s ++ n ++ t = h := by
  intro h
  induction h with
  | nil =>
    simp only [py_in_chars, substr_at_iff]
    constructor
    · rintro ⟨t, ht⟩
      exact ⟨[], t, by simpa using ht⟩
    · rintro ⟨s, t, hst⟩
      rcases List.append_eq_nil.mp hst with ⟨hsn, ht⟩
      rcases List.append_eq_nil.mp hsn with ⟨_, hn⟩
      exact ⟨t, by simp [hn, ht]⟩
  | cons c rest ih =>
    simp only [py_in_chars, Bool.or_eq_true, substr_at_iff, ih]
    constructor
    · rintro (⟨t, ht⟩ | ⟨s, t, hst⟩)
      · exact ⟨[], t, by simpa using ht⟩
      · exact ⟨c :: s, t, by simp [← hst]⟩
    · rintro ⟨s, t, hst⟩
      cases s with
      | nil =>
        left
        exact ⟨t, by simpa using hst⟩
      | cons c' s' =>
        right
        refine ⟨s', t, ?_⟩
        have := (List.cons.injEq c' (s' ++ n ++ t) c rest).mp (by simpa using hst)
        exact this.2

/-- Substring containment is transitive (needed to pass from a word to a
word containing it, e.g. from `international` to `intern`). -/
theorem py_in_trans {a b c : String} (hab : py_in a b = true)
    (hbc : py_in b c = true) : py_in a c = true := by
  unfold py_in at *
  rw [py_in_chars_iff] at *
  obtain ⟨s₁, t₁, h₁⟩ := hab
  obtain ⟨s₂, t₂, h₂⟩ := hbc
  exact ⟨s₂ ++ s₁, t₁ ++ t₂, by rw [← h₂, ← h₁]; simp⟩

/-! ## `detect_mime_type` (`app.py` lines 40–61)

`magic.from_buffer(file_data, mime=True)` is an external call: it is
modelled by `magic_from_buffer : Option String` (`none` models a raised
exception, absorbed by the `except` clause); the `HAS_MAGIC` import flag
is `has_magic`.  `mimetypes.guess_type` is the stdlib extension table,
modelled by the `guess_type` parameter; exactly as in the source it is
applied to `file_data` — the raw payload — since the function receives no
filename. -/

def detect_mime_type (has_magic : Bool) (magic_from_buffer : Option String)
    (guess_type : String → Option String) (file_data : String) : String :=
  match (if has_magic then magic_from_buffer else none) with
  | some mime => mime
  | none =>
    match guess_type file_data with
    | some guessed_type => guessed_type
    | none => "application/octet-stream"

/-- Model of Python's `mimetypes.guess_type`, restricted to the media
types this pipeline ever distinguishes: it maps a *path* ending in a
known extension to that extension's type, and anything else to `none`. -/
def mimetypes_guess_type (url : String) : Option String :=
  if (".pdf".toList).isSuffixOf url.toList then some "application/pdf"
  else if (".png".toList).isSuffixOf url.toList then some "image/png"
  else if (".jpg".toList).isSuffixOf url.toList then some "image/jpeg"
  else if (".jpeg".toList).isSuffixOf url.toList then some "image/jpeg"
  else none

/-! ## `preprocess_image` (`app.py` lines 63–82)

The OpenCV pixel transforms are external library calls; they are an
`ImageOps` record of functions over an abstract image type `I`
(`np.array` / `Image.fromarray` only change the in-memory representation
and are the identity here).  The source applies exactly one chain:
grayscale → adaptive Gaussian threshold → non-local-means denoise. -/

structure ImageOps (I : Type) where
  cvtColor_gray : I → I
  adaptiveThreshold : I → I
  fastNlMeansDenoising : I → I

def preprocess_image {I : Type} (ops : ImageOps I) (image : I) : I :=
  ops.fastNlMeansDenoising (ops.adaptiveThreshold (ops.cvtColor_gray image))

/-- The list of preprocessed variants the pipeline submits to OCR for one
input image: `extract_text_from_images` calls
`pytesseract.image_to_string` exactly once per image, on the single
output of `preprocess_image`. -/
def preprocessed_variants {I : Type} (ops : ImageOps I) (image : I) : List I :=
  [preprocess_image ops image]

/-! ## `convert_pdf_to_images` (`app.py` lines 84–107)

`pdf2image.convert_from_path` is modelled by an oracle from the requested
dpi to the rendered page list (`none` models a raised exception, which the
source's `except` clause turns into `[]`).  The source passes `dpi=300`
and no page bound; the remaining arguments (`output_folder`, `fmt`,
`output_file`) only control where intermediate files are written. -/

def convert_pdf_to_images {I : Type} (convert_from_path : Nat → Option (List I)) :
    List I :=
  match convert_from_path 300 with
  | some images => images
  | none => []

/-! ## `extract_text_from_images` (`app.py` lines 109–134)

`pytesseract.image_to_string(·, config='--psm 6')` is the OCR oracle
`image_to_string : I → String`.  Per image the source appends
`text.strip()` to `extracted_texts` and finally returns
`' '.join(extracted_texts)`. -/

def extract_text_from_images {I : Type} (ops : ImageOps I)
    (image_to_string : I → String) (images : List I) : String :=
  join_sp (images.map (fun image =>
    py_strip (image_to_string (preprocess_image ops image))))

/-! ## `predict_points` (`app.py` lines 136–185) -/

structure Rule where
  «type» : String
  keywords : List String
  points : Nat
deriving DecidableEq

structure PointResult where
  «type» : String
  points : Nat
deriving DecidableEq

def certificate_rules : List Rule :=
  [⟨"NPTEL", ["nptel", "national programme", "online certification"], 50⟩,
   ⟨"Hackathon/Competition", ["hackathon", "competition", "challenge", "winner"], 40⟩,
   ⟨"Internship", ["internship", "intern", "training"], 30⟩,
   ⟨"Professional Development",
     ["professional", "development", "workshop", "seminar", "course"], 20⟩]

def predict_points (extracted_text : String) : PointResult :=
  let text := py_lower extracted_text
  match certificate_rules.find?
      (fun rule => rule.keywords.any (fun keyword => py_in keyword text)) with
  | some rule => ⟨rule.«type», rule.points⟩
  | none => ⟨"Other Certificate", 10⟩

/-! ## `upload_certificate` (`app.py` lines 187–300)

The HTTP request and every external effect it triggers are gathered in a
`Request` record: Boolean flags for the early JSON/field/base64 checks,
the inputs `detect_mime_type` consumes, the pdf2image oracle for the
saved file, and `Image.open`'s outcome (`none` models a raised
exception, absorbed by the inner `except` into a 500 response).  File
writes and cleanup are side effects with no influence on the response. -/

inductive UploadResponse where
  | ok (username : String) (points : Nat) (certificateType : String)
  | err (error : String) (points : Nat) (status : Nat)
deriving DecidableEq

structure Request (I : Type) where
  is_json : Bool
  has_certificate : Bool
  username : String
  filename : String
  decode_ok : Bool
  has_magic : Bool
  magic_from_buffer : Option String
  guess_type : String → Option String
  file_data : String
  convert_from_path : Nat → Option (List I)
  image_open : Option I

def allowed_mime_types : List String :=
  ["application/pdf", "image/jpeg", "image/png", "image/jpg"]

/-- `mime_type.split('/')[-1]`, then `'jpeg' ↦ 'jpg'`. -/
def file_ext_of_mime (mime_type : String) : String :=
  let ext := String.mk ((mime_type.toList.splitOn '/').getLastD [])
  if ext = "jpeg" then "jpg" else ext

def upload_certificate {I : Type} (ops : ImageOps I)
    (image_to_string : I → String) (req : Request I) : UploadResponse :=
  if req.is_json = false then .err "Invalid request format" 0 400
  else if req.has_certificate = false then .err "No file uploaded" 0 400
  else if req.decode_ok = false then .err "Invalid file format" 0 400
  else
    let mime_type := detect_mime_type req.has_magic req.magic_from_buffer
      req.guess_type req.file_data
    if allowed_mime_types.contains mime_type = false then
      .err ("Unsupported file type: " ++ mime_type) 0 400
    else
      let file_extension := file_ext_of_mime mime_type
      if file_extension = "pdf" then
        let images := convert_pdf_to_images req.convert_from_path
        if images.isEmpty then
          .err "Processing error: Could not convert PDF to images" 0 500
        else
          let extracted_text := extract_text_from_images ops image_to_string images
          let point_result := predict_points extracted_text
          .ok req.username point_result.points point_result.«type»
      else
        match req.image_open with
        | none => .err "Processing error: cannot identify image file" 0 500
        | some image =>
          let extracted_text := extract_text_from_images ops image_to_string [image]
          let point_result := predict_points extracted_text
          .ok req.username point_result.points point_result.«type»

/-! ## Concrete instances used by witnesses and counterexamples -/

/-- Image operations over `String` images that change nothing (the claims
about aggregation are about the text combinators, not the pixels). -/
def idStringOps : ImageOps String := ⟨id, id, id⟩

/-- Image operations over `Nat`-coded images that change nothing. -/
def idNatOps : ImageOps Nat := ⟨id, id, id⟩

/-- Distinct injective image operations over `Nat`-coded images, so that a
raster image and its preprocessed variant are different values. -/
def distinctOps : ImageOps Nat := ⟨(· + 1), (· * 2), (· + 3)⟩

/-- OCR oracle for the PDF scenarios: page 4 reads as NPTEL text, page 9
as neutral text, every other page as neutral filler. -/
def pageText (n : Nat) : String :=
  if n = 4 then "nptel stuff" else if n = 9 then "empty stuff" else "blank page"

/-- A 5-page PDF submission whose pages render as `[1, 2, 3, 4, 5]`. -/
def reqA : Request Nat :=
  { is_json := true, has_certificate := true, username := "u", filename := "c.pdf",
    decode_ok := true, has_magic := true,
    magic_from_buffer := some "application/pdf",
    guess_type := fun _ => none, file_data := "pdfbytes",
    convert_from_path := fun _ => some [1, 2, 3, 4, 5], image_open := none }

/-- The same submission as `reqA` except that page 4 is replaced by the
neutral page `9`; pages 1–3 (and 5) are untouched. -/
def reqB : Request Nat :=
  { reqA with convert_from_path := fun _ => some [1, 2, 3, 9, 5] }

/-- OCR oracle returning a 30-character non-certificate text. -/
def catText (_ : Nat) : String := "just a random picture of a cat"

/-- A PNG submission holding a single image (coded `0`). -/
def reqCat : Request Nat :=
  { is_json := true, has_certificate := true, username := "student",
    filename := "cat.png", decode_ok := true, has_magic := true,
    magic_from_buffer := some "image/png", guess_type := fun _ => none,
    file_data := "pngbytes", convert_from_path := fun _ => none,
    image_open := some 0 }

/-- A submission sniffed as `text/plain`, outside the accepted types. -/
def reqPlain : Request Nat :=
  { reqCat with
    magic_from_buffer := some "text/plain",
    filename := "notes.txt", file_data := "some plain text" }

/-- A PDF submission whose rendering raises (pdf2image yields nothing). -/
def reqPdfEmpty : Request Nat :=
  { reqA with convert_from_path := fun _ => none }

/-- OCR oracle agreeing with `gOcr` on the preprocessed variant of image
`0` under `distinctOps` (which is `5`) but not on the raw image `0`. -/
def fOcr (n : Nat) : String := if n = 5 then "five" else "one"

/-- See `fOcr`. -/
def gOcr (n : Nat) : String := if n = 5 then "five" else "two"

/-! ## Helper lemmas shared between claims -/

theorem predict_points_eq_find (t : String) :
    predict_points t =
      match certificate_rules.find?
          (fun rule => rule.keywords.any
            (fun keyword => py_in keyword (py_lower t))) with
      | some rule => ⟨rule.«type», rule.points⟩
      | none => ⟨"Other Certificate", 10⟩ := rfl

theorem predict_points_default {extracted_text : String}
    (h : ∀ rule ∈ certificate_rules, ∀ keyword ∈ rule.keywords,
      py_in keyword (py_lower extracted_text) = false) :
    predict_points extracted_text = ⟨"Other Certificate", 10⟩ := by
  rw [predict_points_eq_find]
  have hnone : certificate_rules.find?
      (fun rule => rule.keywords.any
        (fun keyword => py_in keyword (py_lower extracted_text))) = none := by
    rw [List.find?_eq_none]
    intro rule hrule
    simp only [List.any_eq_true, not_exists, not_and]
    intro keyword hkw
    simp [h rule hrule keyword hkw]
  rw [hnone]

/-! ## The claims -/

/-- C1: any text containing the substring `nptel` (in any letter casing,
hence the hypothesis on the lowercased text) classifies as the NPTEL
category with 50 points, no matter which other keywords co-occur, because
the NPTEL rule is first in `certificate_rules` and `List.find?` is
first-match-wins. -/
theorem nptel_top_priority (extracted_text : String)
    (h : py_in "nptel" (py_lower extracted_text) = true) :
    predict_points extracted_text = ⟨"NPTEL", 50⟩ := by
  rw [predict_points_eq_find]
  have hfind : certificate_rules.find?
      (fun rule => rule.keywords.any
        (fun keyword => py_in keyword (py_lower extracted_text))) =
      some ⟨"NPTEL", ["nptel", "national programme", "online certification"], 50⟩ := by
    unfold certificate_rules
    exact List.find?_cons_of_pos _ (by simp [h])
  rw [hfind]

/-- C1 witness: a text carrying both an NPTEL and a Hackathon keyword
still classifies as NPTEL. -/
theorem nptel_top_priority_witness :
    py_in "nptel" (py_lower "NPTEL Hackathon winner") = true ∧
    predict_points "NPTEL Hackathon winner" = ⟨"NPTEL", 50⟩ :=
  ⟨by decide, nptel_top_priority _ (by decide)⟩

/-- C2 counterexample: a PNG submission whose OCR text is the
30-character string "just a random picture of a cat" — shorter than 50
characters and containing zero indicator keywords — is NOT stopped by any
validation gate: `upload_certificate` returns a 200-style success with
the default category and 10 points, not a `ValidationFailure` with 0
points.  No validator exists anywhere between OCR and classification. -/
theorem no_validation_counterexample :
    upload_certificate idNatOps catText reqCat =
      .ok "student" 10 "Other Certificate" ∧
    ("just a random picture of a cat" : String).length = 30 := by
  exact ⟨by decide, by decide⟩

/-- C2 amended: there is no validation stage.  For any image submission
whose OCR text matches no classification keyword — regardless of its
length or of how few indicator keywords it contains — the pipeline runs
the classifier and answers with the default category and 10 points. -/
theorem no_validation_gate {I : Type} (ops : ImageOps I)
    (image_to_string : I → String) (req : Request I) (image : I)
    (hjson : req.is_json = true) (hcert : req.has_certificate = true)
    (hdec : req.decode_ok = true)
    (hmime : detect_mime_type req.has_magic req.magic_from_buffer
      req.guess_type req.file_data = "image/png")
    (himg : req.image_open = some image)
    (hkw : ∀ rule ∈ certificate_rules, ∀ keyword ∈ rule.keywords,
      py_in keyword
        (py_lower (extract_text_from_images ops image_to_string [image])) = false) :
    upload_certificate ops image_to_string req =
      .ok req.username 10 "Other Certificate" := by
  have hcontains : allowed_mime_types.contains "image/png" = true := rfl
  have hext : file_ext_of_mime "image/png" = "png" := rfl
  simp only [upload_certificate, hjson, hcert, hdec, hmime, himg, hcontains,
    hext, predict_points_default hkw]
  simp

/-- C2 amended witness: the 30-character indicator-free text of the
counterexample flows through `no_validation_gate`. -/
theorem no_validation_gate_witness :
    (∀ rule ∈ certificate_rules, ∀ keyword ∈ rule.keywords,
      py_in keyword
        (py_lower (extract_text_from_images idNatOps catText [0])) = false) ∧
    upload_certificate idNatOps catText reqCat =
      .ok "student" 10 "Other Certificate" :=
  ⟨by decide,
    no_validation_gate idNatOps catText reqCat 0 rfl rfl rfl rfl rfl (by decide)⟩

/-- C3 counterexample: aggregation does not deduplicate and does not drop
short fragments — `["abc", "abc", "def"]` aggregates to
`"abc abc def"`, which differs from the aggregate `"abc def"` of
`["abc", "def"]` (and, against the claim's filter, the 3-character
fragments survive at all). -/
theorem aggregation_dedup_counterexample :
    extract_text_from_images idStringOps id ["abc", "abc", "def"] = "abc abc def" ∧
    extract_text_from_images idStringOps id ["abc", "def"] = "abc def" ∧
    ("abc abc def" : String) ≠ "abc def" :=
  ⟨rfl, rfl, by decide⟩

/-- C3 amended: aggregation keeps every fragment — it strips each OCR
output and joins all of them with single spaces in input order, with no
length filter and no deduplication, so a repeated fragment appears
repeatedly. -/
theorem aggregation_keeps_every_fragment {I : Type} (ops : ImageOps I)
    (image_to_string : I → String) (i j : I) (images : List I) :
    extract_text_from_images ops image_to_string (i :: j :: images) =
      py_strip (image_to_string (preprocess_image ops i)) ++ " " ++
        extract_text_from_images ops image_to_string (j :: images) := rfl

/-- C4 counterexample: a 5-page PDF is rasterized to all 5 pages, not 3,
and the content of page 4 decides the classification: `reqA` and `reqB`
agree on pages 1–3 and 5 and differ only in page 4 (NPTEL text vs
neutral text), yet one classifies as NPTEL with 50 points and the other
as the default with 10. -/
theorem pdf_page_cap_counterexample :
    upload_certificate idNatOps pageText reqA = .ok "u" 50 "NPTEL" ∧
    upload_certificate idNatOps pageText reqB = .ok "u" 10 "Other Certificate" ∧
    (convert_pdf_to_images reqA.convert_from_path).length = 5 := by
  exact ⟨by decide, by decide, rfl⟩

/-- C4 amended: rasterization requests 300 DPI and keeps every page the
renderer produces — there is no page cap, so all pages (including pages
4 and 5 of a 5-page document) reach OCR and classification. -/
theorem convert_pdf_renders_all_pages {I : Type}
    (convert_from_path : Nat → Option (List I)) (pages : List I)
    (h : convert_from_path 300 = some pages) :
    convert_pdf_to_images convert_from_path = pages := by
  unfold convert_pdf_to_images
  rw [h]

/-- C4 amended witness: a renderer producing five pages has all five kept. -/
theorem convert_pdf_renders_all_pages_witness :
    (fun _ : Nat => some [1, 2, 3, 4, 5]) 300 = some [1, 2, 3, 4, 5] ∧
    convert_pdf_to_images (fun _ : Nat => some [(1 : Nat), 2, 3, 4, 5]) =
      [1, 2, 3, 4, 5] ∧
    ([(1 : Nat), 2, 3, 4, 5].length = 3) = False :=
  ⟨rfl, convert_pdf_renders_all_pages _ _ rfl, by decide⟩

/-- C5: when no keyword of any rule occurs in the (lowercased) text,
`predict_points` returns the default category "Other Certificate" with 10
points; being a total function of the text, it cannot fail or raise. -/
theorem default_category_on_no_match (extracted_text : String)
    (h : ∀ rule ∈ certificate_rules, ∀ keyword ∈ rule.keywords,
      py_in keyword (py_lower extracted_text) = false) :
    predict_points extracted_text = ⟨"Other Certificate", 10⟩ :=
  predict_points_default h

/-- C5 witness: the keyword-free text "random scribbles on a wall" gets
the default 10-point category. -/
theorem default_category_on_no_match_witness :
    (∀ rule ∈ certificate_rules, ∀ keyword ∈ rule.keywords,
      py_in keyword (py_lower "random scribbles on a wall") = false) ∧
    predict_points "random scribbles on a wall" = ⟨"Other Certificate", 10⟩ :=
  ⟨by decide, default_category_on_no_match _ (by decide)⟩

/-- C6 counterexample: the preprocessor submits exactly ONE variant per
raster image to OCR — the grayscale → adaptive-threshold → denoise chain
— not the four independent variants (identity, grayscale,
fixed-threshold, adaptive) the claim describes. -/
theorem single_variant_counterexample :
    (preprocessed_variants distinctOps 0).length = 1 ∧
    ((preprocessed_variants distinctOps 0).length = 4) = False := by
  exact ⟨rfl, by decide⟩

/-- C6 amended: per input image the pipeline builds the single composed
variant `preprocess_image` and invokes OCR on it alone — the extraction
result only ever consults the OCR engine at those composed variants, so
two engines agreeing there (but nowhere else, e.g. not on the original
or grayscale images) extract identical text. -/
theorem ocr_only_sees_preprocessed {I : Type} (ops : ImageOps I)
    (f g : I → String) (images : List I)
    (h : ∀ i ∈ images, f (preprocess_image ops i) = g (preprocess_image ops i)) :
    extract_text_from_images ops f images =
      extract_text_from_images ops g images := by
  unfold extract_text_from_images
  exact congrArg join_sp (List.map_congr_left fun a ha => by rw [h a ha])

/-- C6 amended witness: `fOcr` and `gOcr` agree on the composed variant
`5` of image `0` but disagree on the raw image `0` itself, and extraction
cannot tell them apart. -/
theorem ocr_only_sees_preprocessed_witness :
    (∀ i ∈ [(0 : Nat)], fOcr (preprocess_image distinctOps i) =
      gOcr (preprocess_image distinctOps i)) ∧
    extract_text_from_images distinctOps fOcr [0] =
      extract_text_from_images distinctOps gOcr [0] ∧
    fOcr 0 ≠ gOcr 0 :=
  ⟨by decide,
    ocr_only_sees_preprocessed distinctOps fOcr gOcr [0] (by decide),
    by decide⟩

/-- C7 (code slip): with content sniffing unavailable, the fallback
applies the extension guesser to the RAW PAYLOAD BYTES, not to the
declared filename (which `detect_mime_type` does not even receive): PNG
magic bytes carry no extension, so detection lands on the generic
`application/octet-stream` — which the upload handler then rejects —
even though the declared filename `certificate.png` would have guessed
`image/png`. -/
theorem mime_fallback_ignores_filename_bug :
    detect_mime_type false none mimetypes_guess_type
      "\x89PNG\x0d\x0a payloadbytes" = "application/octet-stream" ∧
    mimetypes_guess_type "certificate.png" = some "image/png" ∧
    allowed_mime_types.contains "application/octet-stream" = false :=
  ⟨rfl, rfl, by decide⟩

/-- C8: a submission whose detected media type lies outside
{pdf, jpeg, png, jpg} is answered with an "Unsupported file type" error
carrying 0 points and HTTP 400; the image operations, the OCR engine,
the PDF renderer and the stored image (all universally quantified free
fields of `req`) never enter the result, i.e. the rejection happens
before any rasterization, preprocessing or OCR work. -/
theorem unsupported_type_fails_fast {I : Type} (ops : ImageOps I)
    (image_to_string : I → String) (req : Request I)
    (hjson : req.is_json = true) (hcert : req.has_certificate = true)
    (hdec : req.decode_ok = true)
    (hmime : allowed_mime_types.contains (detect_mime_type req.has_magic
      req.magic_from_buffer req.guess_type req.file_data) = false) :
    upload_certificate ops image_to_string req =
      .err ("Unsupported file type: " ++ detect_mime_type req.has_magic
        req.magic_from_buffer req.guess_type req.file_data) 0 400 := by
  simp only [upload_certificate, hjson, hcert, hdec, hmime]
  simp

/-- C8 witness: a `text/plain` submission is rejected with 0 points. -/
theorem unsupported_type_fails_fast_witness :
    allowed_mime_types.contains (detect_mime_type reqPlain.has_magic
      reqPlain.magic_from_buffer reqPlain.guess_type reqPlain.file_data) = false ∧
    upload_certificate idNatOps catText reqPlain =
      .err "Unsupported file type: text/plain" 0 400 :=
  ⟨by decide,
    unsupported_type_fails_fast idNatOps catText reqPlain rfl rfl rfl (by decide)⟩

/-- C9: a PDF submission whose rendering yields zero pages is answered
with the pipeline-fatal "Processing error: Could not convert PDF to
images" carrying 0 points and HTTP 500; the OCR engine and the image
operations are universally quantified and absent from the result, so no
OCR or classification happens for that submission. -/
theorem empty_pdf_render_fatal {I : Type} (ops : ImageOps I)
    (image_to_string : I → String) (req : Request I)
    (hjson : req.is_json = true) (hcert : req.has_certificate = true)
    (hdec : req.decode_ok = true)
    (hmime : detect_mime_type req.has_magic req.magic_from_buffer
      req.guess_type req.file_data = "application/pdf")
    (hconv : convert_pdf_to_images req.convert_from_path = ([] : List I)) :
    upload_certificate ops image_to_string req =
      .err "Processing error: Could not convert PDF to images" 0 500 := by
  have hcontains : allowed_mime_types.contains "application/pdf" = true := rfl
  have hext : file_ext_of_mime "application/pdf" = "pdf" := rfl
  simp only [upload_certificate, hjson, hcert, hdec, hmime, hcontains, hext, hconv]
  simp

/-- C9 witness: a PDF whose renderer raises (yielding no pages) gets the
fatal 0-point rasterization error. -/
theorem empty_pdf_render_fatal_witness :
    convert_pdf_to_images reqPdfEmpty.convert_from_path = ([] : List Nat) ∧
    upload_certificate idNatOps pageText reqPdfEmpty =
      .err "Processing error: Could not convert PDF to images" 0 500 :=
  ⟨rfl,
    empty_pdf_render_fatal idNatOps pageText reqPdfEmpty rfl rfl rfl rfl rfl⟩

/-- C10: keyword matching is raw substring containment — a text
containing the word "international" (and no keyword of the two
higher-priority rules, listed as the seven negative hypotheses)
classifies as Internship with 30 points, because "intern" sits inside
"international". -/
theorem substring_matching_internship (extracted_text : String)
    (hword : py_in "international" (py_lower extracted_text) = true)
    (h1 : py_in "nptel" (py_lower extracted_text) = false)
    (h2 : py_in "national programme" (py_lower extracted_text) = false)
    (h3 : py_in "online certification" (py_lower extracted_text) = false)
    (h4 : py_in "hackathon" (py_lower extracted_text) = false)
    (h5 : py_in "competition" (py_lower extracted_text) = false)
    (h6 : py_in "challenge" (py_lower extracted_text) = false)
    (h7 : py_in "winner" (py_lower extracted_text) = false) :
    predict_points extracted_text = ⟨"Internship", 30⟩ := by
  have hintern : py_in "intern" (py_lower extracted_text) = true :=
    py_in_trans (by decide) hword
  rw [predict_points_eq_find]
  have hfind : certificate_rules.find?
      (fun rule => rule.keywords.any
        (fun keyword => py_in keyword (py_lower extracted_text))) =
      some ⟨"Internship", ["internship", "intern", "training"], 30⟩ := by
    unfold certificate_rules
    rw [List.find?_cons_of_neg _ (by simp [h1, h2, h3])]
    rw [List.find?_cons_of_neg _ (by simp [h4, h5, h6, h7])]
    exact List.find?_cons_of_pos _ (by simp [hintern])
  rw [hfind]

/-- C10 witness: "Certificate of International Conference" contains no
NPTEL or Hackathon keyword, yet lands in Internship via the substring
"intern" of "international". -/
theorem substring_matching_internship_witness :
    py_in "international" (py_lower "Certificate of International Conference") = true ∧
    predict_points "Certificate of International Conference" = ⟨"Internship", 30⟩ :=
  ⟨by decide,
    substring_matching_internship _ (by decide) (by decide) (by decide)
      (by decide) (by decide) (by decide) (by decide) (by decide)⟩

end ActivityPoints
